import Mathlib

/-!
Verification of the MCP controller core (tool registry, stdio transport
framing, authentication sessions and providers) against its specification.

The Python source is shallowly embedded:
* JSON values are the inductive `Jval`; Python dicts are association lists
  (parsed JSON objects have unique keys).
* `datetime.datetime` instants are modelled by `Int` (microseconds since the
  epoch); `datetime.timedelta(seconds = n)` is `n * 1000000`, and
  `datetime.fromtimestamp ts` is `ts * 1000000`.  ISO-8601 timestamp strings
  are modelled by the instants they denote, since `datetime.isoformat` and
  `datetime.fromisoformat` form an exact inverse pair.
* `datetime.datetime.now()` is an explicit `now : Int` parameter, and
  `uuid.uuid4()` an explicit `session_id : String` parameter.
* Methods that raise are embedded as `Except`/`Option` results, or as
  state-passing functions returning the (unchanged) pre-state together with
  the error, mirroring that a Python `raise` happens before any mutation.
* External library calls (`hashlib.sha256(...).hexdigest()`, the
  `requests.post` token-endpoint exchange) are not code of this repository;
  they enter as parameters: a hash function `String → String`, and the
  decoded token-endpoint response `TokenData`.
-/

/-- JSON values, as produced by `json.loads`.  Numbers are modelled by `Int`
(no claim depends on non-integral JSON numbers). -/
inductive Jval : Type where
  | null : Jval
  | bool (b : Bool) : Jval
  | num (n : Int) : Jval
  | str (s : String) : Jval
  | arr (xs : List Jval) : Jval
  | obj (kvs : List (String × Jval)) : Jval

/-- `core/mcp_base.py`, `MCPTool`: static descriptor of a tool.  The
`execute` behaviour is irrelevant to the claims and omitted. -/
structure MCPTool : Type where
  name : String
  description : String
  schema : Jval

/-- `core/mcp_base.py`, `MCPRequest`: tool name, params and optional
request id.  Python does not enforce types on the decoded JSON fields, so
they are kept as `Jval`. -/
structure MCPRequest : Type where
  tool_name : Jval
  params : Jval
  request_id : Option Jval

/-- `core/tools.py`, `ToolRegistry`: the `_tools` dict, keyed by tool
name. -/
structure ToolRegistry : Type where
  tools : List (String × MCPTool)

lemma lookup_cons {α : Type} (k : String) (p : String × α)
    (l : List (String × α)) :
    ((p :: l).lookup k) = if k = p.1 then some p.2 else l.lookup k := by
  rcases p with ⟨k0, v0⟩
  by_cases h : k = k0
  · subst h
    simp [List.lookup]
  · simp [List.lookup, h, show (k == k0) = false from beq_eq_false_iff_ne.mpr h]

lemma lookup_append_of_none {α : Type} {l1 : List (String × α)}
    (l2 : List (String × α)) {k : String} (h : l1.lookup k = none) :
    (l1 ++ l2).lookup k = l2.lookup k := by
  induction l1 with
  | nil => rfl
  | cons p rest ih =>
    rw [lookup_cons] at h
    by_cases hk : k = p.1
    · simp [hk] at h
    · rw [List.cons_append, lookup_cons, if_neg hk]
      exact ih (by rwa [if_neg hk] at h)

/-- `ToolRegistry.get_tool`: `self._tools.get(tool_name)`. -/
def ToolRegistry.get_tool (r : ToolRegistry) (tool_name : String) : Option MCPTool :=
  r.tools.lookup tool_name

/-- Error message raised by `ToolRegistry.register` on a duplicate name. -/
def ToolRegistry.dupMsg (name : String) : String :=
  "Tool mit dem Namen " ++ name ++ " ist bereits registriert"

/-- Error message raised by `ToolRegistry.unregister` on a missing name. -/
def ToolRegistry.missingMsg (name : String) : String :=
  "Tool mit dem Namen " ++ name ++ " ist nicht registriert"

/-- `ToolRegistry.register`: raises `ValueError` when `tool.name` is already
present, otherwise inserts.  The result pairs the optional error with the
post-state; on a raise the registry is returned unchanged (the Python raise
happens before the dict insertion). -/
def ToolRegistry.register (r : ToolRegistry) (tool : MCPTool) :
    Option String × ToolRegistry :=
  if (r.tools.lookup tool.name).isSome then
    (some (ToolRegistry.dupMsg tool.name), r)
  else
    (none, ⟨r.tools ++ [(tool.name, tool)]⟩)

/-- `ToolRegistry.unregister`: raises `KeyError` when the name is absent,
otherwise deletes the entry (`del self._tools[tool_name]`). -/
def ToolRegistry.unregister (r : ToolRegistry) (tool_name : String) :
    Option String × ToolRegistry :=
  if (r.tools.lookup tool_name).isSome then
    (none, ⟨r.tools.filter (fun p => p.1 ≠ tool_name)⟩)
  else
    (some (ToolRegistry.missingMsg tool_name), r)

/-- Python truthiness of a decoded JSON value: `None`, `False`, `0`, the
empty string, the empty list and the empty dict are falsy. -/
def Jval.truthy : Jval → Bool
  | .null => false
  | .bool b => b
  | .num n => n != 0
  | .str s => !s.isEmpty
  | .arr xs => !xs.isEmpty
  | .obj kvs => !kvs.isEmpty

/-- `core/mcp_base.py`, `MCPRequest.__init__`: `self.params = params or {}`
(a falsy `params` value is replaced by the empty dict) and
`self.request_id = None` (set afterwards by the caller). -/
def MCPRequest.make (tool_name : Jval) (params : Jval) : MCPRequest :=
  { tool_name := tool_name,
    params := if params.truthy then params else .obj [],
    request_id := none }

/-- One read from stdin, as seen by `StdioTransport.receive_request`:
end-of-stream (`readline` returned an empty bytes object), a line that
`json.loads` rejects, or a successfully parsed JSON document. -/
inductive StdinRead : Type where
  | eof : StdinRead
  | badJson (raw : String) : StdinRead
  | json (j : Jval) : StdinRead

/-- `core/transport.py`, `StdioTransport.receive_request` (the body after
the connectedness guard): EOF yields `None`; a `json.JSONDecodeError` is
caught and yields `None`; a parsed document without a `"tool"` key raises
`ValueError`, which the generic `except Exception` handler also turns into
`None` (a non-object document likewise raises `TypeError` at the `in` /
subscript step and lands in the same handler).  Otherwise
`MCPRequest(tool_name=data["tool"], params=data.get("params", {}))` is
built — `MCPRequest.make` applies the constructor's `params or {}`
coercion — and `request.request_id = data["request_id"]` is assigned when
that key is present. -/
def StdioTransport.receive_request : StdinRead → Option MCPRequest
  | .eof => none
  | .badJson _ => none
  | .json (.obj kvs) =>
    match kvs.lookup "tool" with
    | none => none
    | some t =>
      let request := MCPRequest.make t ((kvs.lookup "params").getD (.obj []))
      some { request with request_id := kvs.lookup "request_id" }
  | .json _ => none

/-- `core/mcp_base.py`, `AbstractMCPServer.register_tool`:
`self.tools[tool.name] = tool` — a plain dict insertion.  `dictInsert`
models Python dict assignment: replace in place when the key exists, else
append. -/
def dictInsert {α : Type} : List (String × α) → String → α → List (String × α)
  | [], k, v => [(k, v)]
  | (k0, v0) :: rest, k, v =>
    if k0 = k then (k, v) :: rest else (k0, v0) :: dictInsert rest k v

/-- `AbstractMCPServer.register_tool` on the server's `tools` dict; total,
no duplicate-name check. -/
def AbstractMCPServer.register_tool (tools : List (String × MCPTool))
    (tool : MCPTool) : List (String × MCPTool) :=
  dictInsert tools tool.name tool

lemma lookup_dictInsert_self {α : Type} (l : List (String × α)) (k : String)
    (v : α) : (dictInsert l k v).lookup k = some v := by
  induction l with
  | nil => simp [dictInsert, lookup_cons]
  | cons p rest ih =>
    by_cases hk : p.1 = k
    · simp [dictInsert, hk, lookup_cons]
    · rw [show dictInsert (p :: rest) k v = p :: dictInsert rest k v by
        simp [dictInsert, hk]]
      rw [lookup_cons, if_neg (fun h => hk h.symm), ih]

lemma lookup_dictInsert_ne {α : Type} (l : List (String × α)) (k n : String)
    (v : α) (h : n ≠ k) : (dictInsert l k v).lookup n = l.lookup n := by
  induction l with
  | nil => simp [dictInsert, lookup_cons, h]
  | cons p rest ih =>
    by_cases hk : p.1 = k
    · rw [show dictInsert (p :: rest) k v = (k, v) :: rest by
        simp [dictInsert, hk]]
      rw [lookup_cons, lookup_cons, if_neg h, if_neg (hk ▸ h)]
    · rw [show dictInsert (p :: rest) k v = p :: dictInsert rest k v by
        simp [dictInsert, hk]]
      rw [lookup_cons, lookup_cons, ih]

/-- Claim C1: on a `ToolRegistry`, registering a tool whose name is already
present raises `ValueError` and leaves the registry unchanged (so the first
registration remains active and is not overwritten), and unregistering a
name that is not present raises `KeyError` and leaves the registry
unchanged. -/
theorem toolRegistry_c1 (r : ToolRegistry) (t : MCPTool) (n : String) :
    ((r.get_tool t.name).isSome = true →
      r.register t = (some (ToolRegistry.dupMsg t.name), r))
    ∧ (r.get_tool n = none →
      r.unregister n = (some (ToolRegistry.missingMsg n), r))
    ∧ (∀ t2 : MCPTool, r.get_tool t.name = none → t2.name = t.name →
      (r.register t).2.get_tool t.name = some t
      ∧ (r.register t).2.register t2 =
          (some (ToolRegistry.dupMsg t2.name), (r.register t).2)) := by
  refine ⟨?_, ?_, ?_⟩
  · intro h
    simp only [ToolRegistry.get_tool] at h
    simp [ToolRegistry.register, h]
  · intro h
    simp only [ToolRegistry.get_tool] at h
    simp [ToolRegistry.unregister, h]
  · intro t2 h ht2
    simp only [ToolRegistry.get_tool] at h
    have hreg : r.register t = (none, ⟨r.tools ++ [(t.name, t)]⟩) := by
      simp [ToolRegistry.register, h]
    have hlook : (r.tools ++ [(t.name, t)]).lookup t.name = some t := by
      rw [lookup_append_of_none _ h, lookup_cons]
      simp
    constructor
    · rw [hreg]
      simpa [ToolRegistry.get_tool] using hlook
    · rw [hreg]
      simp [ToolRegistry.register, ht2, hlook]

/-- Witness for C1 at a concrete registry. -/
theorem toolRegistry_c1_witness :
    (ToolRegistry.register ⟨[("a", ⟨"a", "d", Jval.null⟩)]⟩ ⟨"a", "e", Jval.null⟩
      = (some (ToolRegistry.dupMsg "a"), ⟨[("a", ⟨"a", "d", Jval.null⟩)]⟩))
    ∧ (ToolRegistry.unregister ⟨[("a", ⟨"a", "d", Jval.null⟩)]⟩ "b"
      = (some (ToolRegistry.missingMsg "b"), ⟨[("a", ⟨"a", "d", Jval.null⟩)]⟩)) :=
  ⟨(toolRegistry_c1 ⟨[("a", ⟨"a", "d", Jval.null⟩)]⟩ ⟨"a", "e", Jval.null⟩ "b").1 rfl,
   (toolRegistry_c1 ⟨[("a", ⟨"a", "d", Jval.null⟩)]⟩ ⟨"a", "e", Jval.null⟩ "b").2.1 rfl⟩

/-- Claim C2: `StdioTransport.receive_request` turns a parsed JSON object
with a `"tool"` key into the request the `MCPRequest` constructor builds
from that tool name and the document's params (absent or falsy params
become the empty mapping, per `params or {}`), carrying the document's
request id when present; malformed JSON and an object without `"tool"`
each produce `none`, the same signal true end-of-stream produces. -/
theorem stdioTransport_c2 :
    (∀ (kvs : List (String × Jval)) (t : Jval), kvs.lookup "tool" = some t →
      StdioTransport.receive_request (.json (.obj kvs)) =
        some { MCPRequest.make t ((kvs.lookup "params").getD (.obj []))
               with request_id := kvs.lookup "request_id" })
    ∧ (∀ kvs : List (String × Jval), kvs.lookup "tool" = none →
      StdioTransport.receive_request (.json (.obj kvs)) = none)
    ∧ (∀ raw : String, StdioTransport.receive_request (.badJson raw) = none)
    ∧ StdioTransport.receive_request .eof = none := by
  refine ⟨?_, ?_, fun _ => rfl, rfl⟩
  · intro kvs t h
    simp [StdioTransport.receive_request, h]
  · intro kvs h
    simp [StdioTransport.receive_request, h]

/-- Witness for C2 at concrete documents, including a falsy (`null`)
params value coerced to the empty mapping. -/
theorem stdioTransport_c2_witness :
    (StdioTransport.receive_request
        (.json (.obj [("tool", .str "t1"), ("request_id", .str "r1")])) =
      some { tool_name := .str "t1", params := .obj [],
             request_id := some (.str "r1") })
    ∧ (StdioTransport.receive_request
        (.json (.obj [("tool", .str "t1"), ("params", .null)])) =
      some { tool_name := .str "t1", params := .obj [], request_id := none })
    ∧ StdioTransport.receive_request (.json (.obj [("params", .obj [])])) = none := by
  refine ⟨?_, ?_, ?_⟩
  · exact stdioTransport_c2.1 [("tool", .str "t1"), ("request_id", .str "r1")]
      (.str "t1") rfl
  · exact stdioTransport_c2.1 [("tool", .str "t1"), ("params", .null)]
      (.str "t1") rfl
  · exact stdioTransport_c2.2.1 [("params", .obj [])] rfl

/-- Claim C9: `AbstractMCPServer.register_tool` enforces no name
uniqueness: registering `t1` then `t2` with the same name does not fail
(the embedded operation is total) and silently replaces `t1` with `t2`,
while every other name is untouched. -/
theorem mcpServer_c9 (tools : List (String × MCPTool)) (t1 t2 : MCPTool)
    (h : t1.name = t2.name) :
    (AbstractMCPServer.register_tool
        (AbstractMCPServer.register_tool tools t1) t2).lookup t1.name = some t2
    ∧ ∀ n : String, n ≠ t1.name →
      (AbstractMCPServer.register_tool
          (AbstractMCPServer.register_tool tools t1) t2).lookup n =
        tools.lookup n := by
  constructor
  · rw [h]
    exact lookup_dictInsert_self _ _ _
  · intro n hn
    rw [AbstractMCPServer.register_tool, AbstractMCPServer.register_tool,
        lookup_dictInsert_ne _ _ _ _ (h ▸ hn), lookup_dictInsert_ne _ _ _ _ hn]

/-- Witness for C9 at concrete tools sharing a name. -/
theorem mcpServer_c9_witness :
    (AbstractMCPServer.register_tool
        (AbstractMCPServer.register_tool [] ⟨"a", "d1", Jval.null⟩)
        ⟨"a", "d2", Jval.null⟩).lookup "a" = some ⟨"a", "d2", Jval.null⟩ :=
  (mcpServer_c9 [] ⟨"a", "d1", Jval.null⟩ ⟨"a", "d2", Jval.null⟩ rfl).1

/-- `auth/session.py`, `AuthSession`.  `credentials` and `metadata` are
string-to-string dicts (all claim-relevant credential values are strings);
instants are `Int` microseconds since the epoch. -/
structure AuthSession : Type where
  session_id : String
  auth_type : String
  expires_at : Option Int
  credentials : List (String × String)
  metadata : List (String × String)
  created_at : Int
  last_used_at : Int
deriving DecidableEq

/-- `AuthSession.is_expired`: `False` when `expires_at` is `None`,
otherwise `datetime.datetime.now() > self.expires_at` (the current time is
the explicit `now`). -/
def AuthSession.is_expired (s : AuthSession) (now : Int) : Bool :=
  match s.expires_at with
  | none => false
  | some e => decide (now > e)

/-- A value of the dictionary produced by `AuthSession.to_dict`: a plain
string, an ISO-8601 timestamp string (modelled by the instant it denotes),
or a nested string dict. -/
inductive DVal : Type where
  | str (s : String) : DVal
  | ts (t : Int) : DVal
  | smap (m : List (String × String)) : DVal
deriving DecidableEq

/-- Python truthiness of a `DVal`: an ISO timestamp string is never empty,
a string is truthy iff non-empty, a dict iff non-empty. -/
def DVal.truthy : DVal → Bool
  | .str s => !s.isEmpty
  | .ts _ => true
  | .smap m => !m.isEmpty

def DVal.asStr : DVal → Option String
  | .str s => some s
  | _ => none

def DVal.asTs : DVal → Option Int
  | .ts t => some t
  | _ => none

def DVal.asMap : DVal → Option (List (String × String))
  | .smap m => some m
  | _ => none

/-- `AuthSession.to_dict`: the six unconditional entries in source order,
plus `expires_at` appended only when `self.expires_at` is truthy (a
`datetime` is always truthy, so exactly when it is not `None`). -/
def AuthSession.to_dict (s : AuthSession) : List (String × DVal) :=
  [("session_id", .str s.session_id),
   ("auth_type", .str s.auth_type),
   ("created_at", .ts s.created_at),
   ("last_used_at", .ts s.last_used_at),
   ("credentials", .smap s.credentials),
   ("metadata", .smap s.metadata)]
  ++ (match s.expires_at with
      | some e => [("expires_at", DVal.ts e)]
      | none => [])

/-- `AuthSession.from_dict`: `expires_at` is parsed only when the key is
present and its value truthy; `session_id`/`auth_type` are read with `[]`
(KeyError modelled as `none`), `credentials`/`metadata` with
`.get(_, {})`; `created_at`/`last_used_at` are then overwritten from the
dict.  Parse failures of the timestamp fields are also modelled as
`none`. -/
def AuthSession.from_dict (data : List (String × DVal)) : Option AuthSession := do
  let ea : Option Int ←
    match data.lookup "expires_at" with
    | some v => if v.truthy then v.asTs.map some else some none
    | none => some none
  let sid ← (data.lookup "session_id").bind DVal.asStr
  let aty ← (data.lookup "auth_type").bind DVal.asStr
  let creds ← ((data.lookup "credentials").getD (.smap [])).asMap
  let md ← ((data.lookup "metadata").getD (.smap [])).asMap
  let ca ← (data.lookup "created_at").bind DVal.asTs
  let lu ← (data.lookup "last_used_at").bind DVal.asTs
  return { session_id := sid, auth_type := aty, expires_at := ea,
           credentials := creds, metadata := md,
           created_at := ca, last_used_at := lu }

/-- Claim C3: reconstructing via `AuthSession.from_dict` from the output of
`AuthSession.to_dict` yields a session whose `session_id`, `auth_type`,
`expires_at` (including the `None` case), `credentials`, `metadata`,
`created_at` and `last_used_at` all equal those of the original — stated
as full equality of the reconstructed session. -/
theorem authSession_c3 (s : AuthSession) :
    AuthSession.from_dict (AuthSession.to_dict s) = some s := by
  rcases s with ⟨sid, aty, ea, creds, md, ca, lu⟩
  cases ea <;> rfl

/-- Claim C4: `is_expired` is `false` when `expires_at` is `None` (never
expires), `false` when `now` equals `expires_at` exactly, and `true`
exactly when `now > expires_at`. -/
theorem authSession_c4 (s : AuthSession) (now : Int) :
    (s.expires_at = none → s.is_expired now = false)
    ∧ (∀ e : Int, s.expires_at = some e →
        (s.is_expired now = true ↔ now > e))
    ∧ (s.expires_at = some now → s.is_expired now = false) := by
  refine ⟨?_, ?_, ?_⟩
  · intro h
    simp [AuthSession.is_expired, h]
  · intro e h
    simp [AuthSession.is_expired, h]
  · intro h
    simp [AuthSession.is_expired, h]

/-- Witness for C4 at concrete sessions: never-expiring, boundary, and one
microsecond past the boundary. -/
theorem authSession_c4_witness :
    (AuthSession.is_expired ⟨"s", "api_key", none, [], [], 0, 0⟩ 5 = false)
    ∧ (AuthSession.is_expired ⟨"s", "api_key", some 5, [], [], 0, 0⟩ 5 = false)
    ∧ (AuthSession.is_expired ⟨"s", "api_key", some 5, [], [], 0, 0⟩ 6 = true) :=
  ⟨(authSession_c4 ⟨"s", "api_key", none, [], [], 0, 0⟩ 5).1 rfl,
   (authSession_c4 ⟨"s", "api_key", some 5, [], [], 0, 0⟩ 5).2.2 rfl,
   ((authSession_c4 ⟨"s", "api_key", some 5, [], [], 0, 0⟩ 6).2.1 5 rfl).mpr
     (by decide)⟩

/-- `auth/session.py`, `MemorySessionStorage`: the `_sessions` dict, keyed
by session id (`save_session` stores under `session.session_id`). -/
abbrev MemorySessionStorage : Type := List (String × AuthSession)

/-- `MemorySessionStorage.save_session`:
`self._sessions[session.session_id] = session`; always returns `True`. -/
def MemorySessionStorage.save_session (st : MemorySessionStorage)
    (session : AuthSession) : Bool × MemorySessionStorage :=
  (true, dictInsert st session.session_id session)

/-- `MemorySessionStorage.load_session`: `self._sessions.get(session_id)`. -/
def MemorySessionStorage.load_session (st : MemorySessionStorage)
    (session_id : String) : Option AuthSession :=
  st.lookup session_id

/-- `MemorySessionStorage.delete_session`: deletes the entry and returns
`True` when the id is present, else returns `False` leaving the dict
unchanged. -/
def MemorySessionStorage.delete_session (st : MemorySessionStorage)
    (session_id : String) : Bool × MemorySessionStorage :=
  if (st.lookup session_id).isSome then
    (true, st.filter (fun p => p.1 ≠ session_id))
  else
    (false, st)

/-- `MemorySessionStorage.get_all_sessions`:
`list(self._sessions.values())`. -/
def MemorySessionStorage.get_all_sessions (st : MemorySessionStorage) :
    List AuthSession :=
  st.map Prod.snd

/-- The `for session in sessions` loop of
`SessionManager.clean_expired_sessions`: delete each expired session from
storage and count it. -/
def SessionManager.cleanLoop (now : Int) :
    List AuthSession → Nat × MemorySessionStorage → Nat × MemorySessionStorage
  | [], acc => acc
  | s :: rest, (c, st) =>
    if s.is_expired now then
      SessionManager.cleanLoop now rest
        (c + 1, (st.delete_session s.session_id).2)
    else
      SessionManager.cleanLoop now rest (c, st)

/-- `SessionManager.clean_expired_sessions` over a `MemorySessionStorage`:
enumerate all stored sessions, delete the expired ones, return the count
together with the post-state.  The per-iteration `datetime.now()` calls
are the single explicit `now`. -/
def SessionManager.clean_expired_sessions (now : Int)
    (st : MemorySessionStorage) : Nat × MemorySessionStorage :=
  SessionManager.cleanLoop now (st.get_all_sessions) (0, st)

lemma keys_ne_of_lookup_none {α : Type} {l : List (String × α)} {k : String}
    (h : l.lookup k = none) : ∀ p ∈ l, p.1 ≠ k := by
  induction l with
  | nil => intro p hp; cases hp
  | cons q rest ih =>
    rw [lookup_cons] at h
    by_cases hk : k = q.1
    · simp [hk] at h
    · rw [if_neg hk] at h
      intro p hp
      rcases List.mem_cons.mp hp with hq | hp
      · subst hq; exact fun he => hk he.symm
      · exact ih h p hp

lemma lookup_eq_none_of_keys_ne {α : Type} {l : List (String × α)}
    {k : String} (h : ∀ p ∈ l, p.1 ≠ k) : l.lookup k = none := by
  induction l with
  | nil => rfl
  | cons q rest ih =>
    rw [lookup_cons, if_neg (fun he => h q (List.mem_cons_self q rest) he.symm)]
    exact ih (fun p hp => h p (List.mem_cons_of_mem q hp))

lemma delete_session_snd (st : MemorySessionStorage) (session_id : String) :
    (st.delete_session session_id).2 =
      st.filter (fun p => p.1 ≠ session_id) := by
  unfold MemorySessionStorage.delete_session
  rcases h : st.lookup session_id with _ | v
  · simp only [h, Option.isSome_none, Bool.false_eq_true, if_false]
    exact (List.filter_eq_self.mpr
      (fun p hp => by simpa using keys_ne_of_lookup_none h p hp)).symm
  · simp [h]

lemma cleanLoop_spec (now : Int) (l : List AuthSession) :
    ∀ (c : Nat) (st : MemorySessionStorage),
    SessionManager.cleanLoop now l (c, st) =
      (c + (l.filter (fun s => s.is_expired now)).length,
       st.filter (fun p =>
         !((l.filter (fun s => s.is_expired now)).map
             AuthSession.session_id).contains p.1)) := by
  induction l with
  | nil =>
    intro c st
    simp [SessionManager.cleanLoop]
  | cons s rest ih =>
    intro c st
    by_cases hexp : s.is_expired now
    · rw [show SessionManager.cleanLoop now (s :: rest) (c, st) =
          SessionManager.cleanLoop now rest
            (c + 1, (st.delete_session s.session_id).2) by
        simp [SessionManager.cleanLoop, hexp]]
      rw [ih, delete_session_snd, List.filter_filter]
      simp only [List.filter_cons, hexp, if_true, List.length_cons, List.map_cons]
      refine congrArg₂ Prod.mk (by omega) ?_
      apply List.filter_congr
      intro p _
      by_cases hk : p.1 = s.session_id
      · simp [hk, List.contains_cons]
      · simp [hk, List.contains_cons]
    · rw [show SessionManager.cleanLoop now (s :: rest) (c, st) =
          SessionManager.cleanLoop now rest (c, st) by
        simp [SessionManager.cleanLoop, hexp]]
      rw [ih]
      simp [List.filter_cons, hexp]

lemma length_filter_map_snd (st : List (String × AuthSession))
    (f : AuthSession → Bool) :
    ((st.map Prod.snd).filter f).length = (st.filter (fun p => f p.2)).length := by
  induction st with
  | nil => rfl
  | cons p rest ih =>
    by_cases h : f p.2 <;> simp [List.filter_cons, h, ih]

/-- Claim C5: over a storage holding finitely many sessions (a dict, so
keys are distinct and each entry is keyed by its session's id),
`clean_expired_sessions` deletes from storage exactly the sessions whose
`is_expired` is true, keeps every non-expired one, returns the number
deleted, and afterwards loading a deleted session's id returns absent. -/
theorem sessionManager_c5 (st : MemorySessionStorage) (now : Int)
    (hkeys : ∀ p ∈ st, p.1 = p.2.session_id)
    (hnd : (st.map Prod.fst).Nodup) :
    (SessionManager.clean_expired_sessions now st).1 =
      (st.filter (fun p => p.2.is_expired now)).length
    ∧ (SessionManager.clean_expired_sessions now st).2 =
      st.filter (fun p => !p.2.is_expired now)
    ∧ ∀ p ∈ st, p.2.is_expired now = true →
      ((SessionManager.clean_expired_sessions now st).2).load_session p.1 = none := by
  have hloop := cleanLoop_spec now (st.get_all_sessions) 0 st
  have hcontains : ∀ p ∈ st,
      (((st.get_all_sessions).filter (fun s => s.is_expired now)).map
        AuthSession.session_id).contains p.1 = p.2.is_expired now := by
    intro p hp
    by_cases hexp : p.2.is_expired now
    · rw [hexp]
      refine List.elem_eq_true_of_mem ?_
      refine List.mem_map.mpr ⟨p.2, List.mem_filter.mpr ⟨?_, hexp⟩, (hkeys p hp).symm⟩
      exact List.mem_map_of_mem Prod.snd hp
    · rw [Bool.not_eq_true] at hexp
      rw [hexp]
      refine Bool.eq_false_iff.mpr ?_
      intro hcon
      have hmem := List.mem_of_elem_eq_true hcon
      rcases List.mem_map.mp hmem with ⟨v, hv, hvid⟩
      rcases List.mem_filter.mp hv with ⟨hvmem, hvexp⟩
      rcases List.mem_map.mp hvmem with ⟨q, hq, hqv⟩
      have hqp : q = p := by
        refine List.inj_on_of_nodup_map hnd hq hp ?_
        rw [hkeys q hq, hqv, hvid]
      rw [← hqv, hqp] at hvexp
      rw [hexp] at hvexp
      cases hvexp
  have hfilter :
      st.filter (fun p =>
        !(((st.get_all_sessions).filter (fun s => s.is_expired now)).map
            AuthSession.session_id).contains p.1) =
      st.filter (fun p => !p.2.is_expired now) :=
    List.filter_congr (fun p hp => by rw [hcontains p hp])
  have hres : SessionManager.clean_expired_sessions now st =
      ((st.filter (fun p => p.2.is_expired now)).length,
       st.filter (fun p => !p.2.is_expired now)) := by
    rw [SessionManager.clean_expired_sessions, hloop, hfilter]
    rw [Nat.zero_add, MemorySessionStorage.get_all_sessions,
        length_filter_map_snd]
  refine ⟨by rw [hres], by rw [hres], ?_⟩
  intro p hp hexp
  rw [hres]
  apply lookup_eq_none_of_keys_ne
  intro q hq
  rcases List.mem_filter.mp hq with ⟨hqmem, hqexp⟩
  intro hqp
  have : q = p := by
    refine List.inj_on_of_nodup_map hnd hqmem hp ?_
    exact hqp
  rw [this, hexp] at hqexp
  cases hqexp

/-- Witness for C5: three stored sessions, two with `expires_at` in the
past; the sweep removes exactly those two, returns 2, and loading a
deleted id is absent. -/
theorem sessionManager_c5_witness :
    (SessionManager.clean_expired_sessions 100
      [("a", ⟨"a", "oauth2", some 50, [], [], 0, 0⟩),
       ("b", ⟨"b", "api_key", none, [], [], 0, 0⟩),
       ("c", ⟨"c", "oauth2", some 70, [], [], 0, 0⟩)]).1 = 2
    ∧ (SessionManager.clean_expired_sessions 100
      [("a", ⟨"a", "oauth2", some 50, [], [], 0, 0⟩),
       ("b", ⟨"b", "api_key", none, [], [], 0, 0⟩),
       ("c", ⟨"c", "oauth2", some 70, [], [], 0, 0⟩)]).2 =
      [("b", ⟨"b", "api_key", none, [], [], 0, 0⟩)]
    ∧ ((SessionManager.clean_expired_sessions 100
      [("a", ⟨"a", "oauth2", some 50, [], [], 0, 0⟩),
       ("b", ⟨"b", "api_key", none, [], [], 0, 0⟩),
       ("c", ⟨"c", "oauth2", some 70, [], [], 0, 0⟩)]).2).load_session "a" = none := by
  have h := sessionManager_c5
    [("a", ⟨"a", "oauth2", some 50, [], [], 0, 0⟩),
     ("b", ⟨"b", "api_key", none, [], [], 0, 0⟩),
     ("c", ⟨"c", "oauth2", some 70, [], [], 0, 0⟩)] 100
    (by decide) (by decide)
  exact ⟨h.1.trans (by rfl), h.2.1.trans (by rfl),
         h.2.2 ("a", ⟨"a", "oauth2", some 50, [], [], 0, 0⟩) (by decide) (by rfl)⟩

/-- Python truthiness of an `Optional[str]`: `None` and the empty string
are falsy. -/
def strTruthy : Option String → Bool
  | none => false
  | some s => !s.isEmpty

/-- A decoded token-endpoint response (the JSON body of a successful
`requests.post(self.token_url, ...)`) with the keys the source reads; a
`none` field models an absent key. -/
structure TokenData : Type where
  access_token : Option String
  refresh_token : Option String
  expires_in : Option Int
  expires_at : Option Int
  scope : Option String
  token_type : Option String
deriving DecidableEq

/-- `auth/oauth2.py`, `OAuth2Session.__init__`: builds the credentials dict
with `access_token` and `token_type` always, `refresh_token` and `scope`
only when truthy, then delegates to `AuthSession.__init__` with
`auth_type="oauth2"`. -/
def mkOAuth2Session (session_id access_token : String)
    (refresh_token : Option String) (expires_at : Option Int)
    (scope : Option String) (token_type : String)
    (metadata : List (String × String)) (now : Int) : AuthSession :=
  let creds0 := [("access_token", access_token), ("token_type", token_type)]
  let creds1 := if strTruthy refresh_token then
      creds0 ++ [("refresh_token", refresh_token.getD "")] else creds0
  let creds2 := if strTruthy scope then
      creds1 ++ [("scope", scope.getD "")] else creds1
  { session_id := session_id, auth_type := "oauth2", expires_at := expires_at,
    credentials := creds2, metadata := metadata,
    created_at := now, last_used_at := now }

/-- `OAuth2Session.refresh_token` property:
`self.credentials.get("refresh_token")`. -/
def AuthSession.refresh_token (s : AuthSession) : Option String :=
  s.credentials.lookup "refresh_token"

/-- `OAuth2Session.access_token` property:
`self.credentials.get("access_token", "")`. -/
def AuthSession.access_token (s : AuthSession) : String :=
  (s.credentials.lookup "access_token").getD ""

/-- `OAuth2Session.from_token_response`: `expires_at` comes from
`expires_in` (relative to now) when that key is present, else from an
absolute `expires_at` timestamp, else is absent; `access_token` is read
with `[]` (KeyError on absence is modelled as `none`); `refresh_token`,
`scope` and `token_type` are read with `.get`. -/
def OAuth2Session.from_token_response (session_id : String) (td : TokenData)
    (now : Int) : Option AuthSession :=
  let expires_at : Option Int :=
    match td.expires_in with
    | some ei => some (now + ei * 1000000)
    | none =>
      match td.expires_at with
      | some ts => some (ts * 1000000)
      | none => none
  match td.access_token with
  | none => none
  | some tok =>
    some (mkOAuth2Session session_id tok td.refresh_token expires_at
      td.scope (td.token_type.getD "Bearer") [] now)

/-- `auth/oauth2.py`, `OAuth2Provider.refresh_session`: raises `ValueError`
when the session's refresh token is falsy; otherwise exchanges it at the
token endpoint (the decoded response is the explicit `td`), restores the
old refresh token into the response when the response omits one, builds
the replacement via `OAuth2Session.from_token_response` (re-raising its
failure) and copies the old session's metadata onto it. -/
def OAuth2Provider.refresh_session (s : AuthSession) (td : TokenData)
    (now : Int) : Except String AuthSession :=
  if strTruthy s.refresh_token then
    let td1 := if td.refresh_token = none ∧ strTruthy s.refresh_token then
        { td with refresh_token := s.refresh_token } else td
    match OAuth2Session.from_token_response s.session_id td1 now with
    | some ns => .ok { ns with metadata := s.metadata }
    | none => .error "KeyError: access_token"
  else
    .error "Session enthaelt kein Refresh Token"

/-- `OAuth2Provider.refresh_session` as a state-passing operation over the
session storage: the source method performs no storage operation at all
(neither on success nor on failure), so the storage passes through
unchanged. -/
def OAuth2Provider.refresh_session_st (st : MemorySessionStorage)
    (s : AuthSession) (td : TokenData) (now : Int) :
    Except String AuthSession × MemorySessionStorage :=
  (OAuth2Provider.refresh_session s td now, st)

/-- `auth/api_key.py`, `APIKeyProvider.refresh_session`: `return session`
unchanged (API keys need no refresh). -/
def APIKeyProvider.refresh_session (session : AuthSession) : AuthSession :=
  session

/-- `APIKeyProvider.refresh_session` as a state-passing operation over the
session storage: the source method performs no storage operation. -/
def APIKeyProvider.refresh_session_st (st : MemorySessionStorage)
    (session : AuthSession) : AuthSession × MemorySessionStorage :=
  (APIKeyProvider.refresh_session session, st)

/-- `auth/oauth2.py`, `OAuth2Provider.validate_session`: wrong-type
sessions (the `isinstance` check, modelled by the `auth_type` tag) are
invalid; an expired session with a truthy refresh token is validated by
attempting `refresh_session`, returning `True` on success — the refreshed
session is discarded — and `False` on failure; an expired session without
a refresh token is invalid; a non-expired session is valid. -/
def OAuth2Provider.validate_session (s : AuthSession) (td : TokenData)
    (now : Int) : Bool :=
  if s.auth_type = "oauth2" then
    if s.is_expired now then
      if strTruthy s.refresh_token then
        match OAuth2Provider.refresh_session s td now with
        | .ok _ => true
        | .error _ => false
      else false
    else true
  else false

/-- `OAuth2Provider.validate_session` as a state-passing operation over the
session storage: the source method performs no storage operation, so
nothing is persisted. -/
def OAuth2Provider.validate_session_st (st : MemorySessionStorage)
    (s : AuthSession) (td : TokenData) (now : Int) :
    Bool × MemorySessionStorage :=
  (OAuth2Provider.validate_session s td now, st)

/-- `auth/api_key.py`, `APIKeySession.__init__`: credentials always hold
`api_key`; when `api_secret` is truthy they also hold `api_secret_hash`
(the one-way hash of the secret) and the secret itself, and when `key_id`
is truthy they hold it too; `auth_type` is `"api_key"`.  The `hash`
parameter models the external `hashlib.sha256(...).hexdigest()` call of
`APIKeySession._hash_secret`. -/
def mkAPIKeySession (hash : String → String) (session_id api_key : String)
    (api_secret : Option String) (expires_at : Option Int)
    (key_id : Option String) (metadata : List (String × String))
    (now : Int) : AuthSession :=
  let creds0 := [("api_key", api_key)]
  let creds1 := if strTruthy api_secret then
      creds0 ++ [("api_secret_hash", hash (api_secret.getD "")),
                 ("api_secret", api_secret.getD "")] else creds0
  let creds2 := if strTruthy key_id then
      creds1 ++ [("key_id", key_id.getD "")] else creds1
  { session_id := session_id, auth_type := "api_key", expires_at := expires_at,
    credentials := creds2, metadata := metadata,
    created_at := now, last_used_at := now }

/-- `APIKeySession.validate_secret`: `False` when no `api_secret_hash` is
stored, else compare the hash of the candidate secret with the stored
hash. -/
def APIKeySession.validate_secret (hash : String → String) (s : AuthSession)
    (secret : String) : Bool :=
  match s.credentials.lookup "api_secret_hash" with
  | none => false
  | some h => hash secret == h

/-- `APIKeyProvider.authenticate` with no validation callback
(`validate_func is None`): computes `expires_at` from `expires_in` when
given, generates a session id (explicit parameter) and builds an
`APIKeySession`. -/
def APIKeyProvider.authenticate (hash : String → String) (api_key : String)
    (api_secret : Option String) (expires_in : Option Int)
    (key_id : Option String) (metadata : List (String × String))
    (session_id : String) (now : Int) : AuthSession :=
  let expires_at := expires_in.map (fun ei => now + ei * 1000000)
  mkAPIKeySession hash session_id api_key api_secret expires_at key_id
    metadata now

lemma strTruthy_some {o : Option String} (h : strTruthy o = true) :
    ∃ r, o = some r ∧ r ≠ "" := by
  cases o with
  | none => cases h
  | some r =>
    refine ⟨r, rfl, ?_⟩
    rw [strTruthy, Bool.not_eq_eq_eq_not, Bool.not_true] at h
    intro he
    rw [he] at h
    cases h

lemma strTruthy_some_ne {r : String} (h : r ≠ "") :
    strTruthy (some r) = true := by
  rw [strTruthy, Bool.not_eq_eq_eq_not, Bool.not_true]
  exact Bool.eq_false_iff.mpr (fun he => h ((String.isEmpty_iff r).mp he))

/-- Claim C6: when the token-endpoint exchange succeeds (the response
carries an `access_token`), `OAuth2Provider.refresh_session` on a session
with a (truthy) refresh token returns a replacement session — a new value
built by `OAuth2Session.from_token_response` (the embedding is pure, so
the input session itself is untouched) — whose `session_id` and `metadata`
equal the old session's, and whose `refresh_token` equals the old one
whenever the response omits a `refresh_token`. -/
theorem oauth2_c6 (s : AuthSession) (td : TokenData) (now : Int) (a : String)
    (hrt : strTruthy s.refresh_token = true) (ha : td.access_token = some a) :
    ∃ ns, OAuth2Provider.refresh_session s td now = .ok ns
      ∧ ns.session_id = s.session_id
      ∧ ns.metadata = s.metadata
      ∧ (td.refresh_token = none → ns.refresh_token = s.refresh_token)
      ∧ ∃ (td1 : TokenData) (base : AuthSession),
          OAuth2Session.from_token_response s.session_id td1 now = some base
          ∧ ns = { base with metadata := s.metadata } := by
  obtain ⟨r, hr, hrne⟩ := strTruthy_some hrt
  by_cases hrf : td.refresh_token = none
  · have hcond : (td.refresh_token = none ∧ strTruthy s.refresh_token = true) :=
      ⟨hrf, hrt⟩
    have hbase : OAuth2Session.from_token_response s.session_id
        { td with refresh_token := s.refresh_token } now =
        some (mkOAuth2Session s.session_id a s.refresh_token
          (match td.expires_in with
           | some ei => some (now + ei * 1000000)
           | none =>
             match td.expires_at with
             | some ts => some (ts * 1000000)
             | none => none)
          td.scope (td.token_type.getD "Bearer") [] now) := by
      rw [OAuth2Session.from_token_response]
      simp only [ha]
    have hstep : OAuth2Provider.refresh_session s td now =
        .ok { mkOAuth2Session s.session_id a s.refresh_token
          (match td.expires_in with
           | some ei => some (now + ei * 1000000)
           | none =>
             match td.expires_at with
             | some ts => some (ts * 1000000)
             | none => none)
          td.scope (td.token_type.getD "Bearer") [] now
          with metadata := s.metadata } := by
      rw [OAuth2Provider.refresh_session, if_pos hrt, if_pos hcond]
      simp only [hbase]
    refine ⟨_, hstep, ?_, ?_, ?_, ?_⟩
    · by_cases hsc : strTruthy td.scope = true <;>
        simp [mkOAuth2Session, hsc]
    · rfl
    · intro _
      rw [hr]
      have hrtr : strTruthy (some r) = true := strTruthy_some_ne hrne
      by_cases hsc : strTruthy td.scope = true <;>
        simp [mkOAuth2Session, hrtr, hsc, AuthSession.refresh_token, lookup_cons]
    · exact ⟨{ td with refresh_token := s.refresh_token }, _, hbase, rfl⟩
  · have hcond : ¬(td.refresh_token = none ∧ strTruthy s.refresh_token = true) :=
      fun hc => hrf hc.1
    have hbase : OAuth2Session.from_token_response s.session_id td now =
        some (mkOAuth2Session s.session_id a td.refresh_token
          (match td.expires_in with
           | some ei => some (now + ei * 1000000)
           | none =>
             match td.expires_at with
             | some ts => some (ts * 1000000)
             | none => none)
          td.scope (td.token_type.getD "Bearer") [] now) := by
      rw [OAuth2Session.from_token_response]
      simp only [ha]
    have hstep : OAuth2Provider.refresh_session s td now =
        .ok { mkOAuth2Session s.session_id a td.refresh_token
          (match td.expires_in with
           | some ei => some (now + ei * 1000000)
           | none =>
             match td.expires_at with
             | some ts => some (ts * 1000000)
             | none => none)
          td.scope (td.token_type.getD "Bearer") [] now
          with metadata := s.metadata } := by
      rw [OAuth2Provider.refresh_session, if_pos hrt, if_neg hcond]
      simp only [hbase]
    refine ⟨_, hstep, ?_, ?_, ?_, ?_⟩
    · by_cases hsc : strTruthy td.scope = true <;>
        simp [mkOAuth2Session, hsc]
    · rfl
    · intro h
      exact absurd h hrf
    · exact ⟨td, _, hbase, rfl⟩

/-- Witness for C6: a concrete session with refresh token `"r1"` and a
token response that omits `refresh_token`; the replacement still carries
`"r1"`. -/
theorem oauth2_c6_witness :
    ∃ ns, OAuth2Provider.refresh_session
        ⟨"sid", "oauth2", some 10,
         [("access_token", "old"), ("token_type", "Bearer"),
          ("refresh_token", "r1")], [("k", "v")], 0, 0⟩
        ⟨some "new", none, some 3600, none, none, none⟩ 100 = .ok ns
      ∧ ns.session_id = "sid"
      ∧ ns.metadata = [("k", "v")]
      ∧ ns.refresh_token = some "r1" := by
  obtain ⟨ns, h1, h2, h3, h4, _⟩ := oauth2_c6
    ⟨"sid", "oauth2", some 10,
     [("access_token", "old"), ("token_type", "Bearer"),
      ("refresh_token", "r1")], [("k", "v")], 0, 0⟩
    ⟨some "new", none, some 3600, none, none, none⟩ 100 "new" rfl rfl
  exact ⟨ns, h1, h2, h3, (h4 rfl).trans rfl⟩

/-- Claim C7: `APIKeyProvider.refresh_session` returns the session
unchanged (API keys need no refresh) and touches no storage;
`OAuth2Provider.refresh_session` on a session without a (truthy) refresh
token fails with `ValueError`; and a refresh failure leaves the session
storage untouched — the source refresh methods never perform a storage
operation, reflected by the state-passing embeddings. -/
theorem refresh_c7 (s : AuthSession) (td : TokenData) (now : Int)
    (st : MemorySessionStorage) (h : strTruthy s.refresh_token = false) :
    APIKeyProvider.refresh_session s = s
    ∧ APIKeyProvider.refresh_session_st st s = (s, st)
    ∧ (∃ m, OAuth2Provider.refresh_session s td now = .error m)
    ∧ (OAuth2Provider.refresh_session_st st s td now).2 = st := by
  refine ⟨rfl, rfl, ?_, rfl⟩
  refine ⟨"Session enthaelt kein Refresh Token", ?_⟩
  rw [OAuth2Provider.refresh_session, if_neg]
  rw [h]
  exact Bool.false_ne_true

/-- Witness for C7: a concrete API-key session with no refresh token. -/
theorem refresh_c7_witness :
    APIKeyProvider.refresh_session
      ⟨"sid", "api_key", none, [("api_key", "k")], [], 0, 0⟩ =
      ⟨"sid", "api_key", none, [("api_key", "k")], [], 0, 0⟩
    ∧ ∃ m, OAuth2Provider.refresh_session
      ⟨"sid", "api_key", none, [("api_key", "k")], [], 0, 0⟩
      ⟨none, none, none, none, none, none⟩ 5 = .error m :=
  ⟨(refresh_c7 ⟨"sid", "api_key", none, [("api_key", "k")], [], 0, 0⟩
      ⟨none, none, none, none, none, none⟩ 5 [] rfl).1,
   (refresh_c7 ⟨"sid", "api_key", none, [("api_key", "k")], [], 0, 0⟩
      ⟨none, none, none, none, none, none⟩ 5 [] rfl).2.2.1⟩

/-- Counterexample to C8 as stated: the claim quantifies over every
`api_secret`, but `APIKeySession.__init__` guards the secret credentials
with Python truthiness (`if api_secret:`), so for the empty-string secret
the produced session's credentials contain no `api_secret` entry at all
(and `validate_secret("")` is `false`, not `true`). -/
theorem apiKey_c8_cex :
    ((APIKeyProvider.authenticate (fun x => x) "k" (some "") none none []
        "sid" 0).credentials.lookup "api_secret" = none)
    ∧ ((APIKeyProvider.authenticate (fun x => x) "k" (some "") none none []
        "sid" 0).credentials.lookup "api_secret" ≠ some "")
    ∧ APIKeySession.validate_secret (fun x => x)
        (APIKeyProvider.authenticate (fun x => x) "k" (some "") none none []
          "sid" 0) "" = false := by
  refine ⟨rfl, ?_, rfl⟩
  intro h
  cases h

/-- Claim C8 (amended: for every non-empty `api_secret` — the source drops
the secret credentials for a falsy secret): `authenticate` with no
validation callback produces a session whose credentials contain the key,
the secret, and the deterministic one-way hash of the secret;
`validate_secret` accepts the original secret and rejects every candidate
whose hash differs. -/
theorem apiKey_c8 (hash : String → String) (k sec sid : String) (now : Int)
    (hs : sec ≠ "") :
    ((APIKeyProvider.authenticate hash k (some sec) none none [] sid
        now).credentials.lookup "api_key" = some k)
    ∧ ((APIKeyProvider.authenticate hash k (some sec) none none [] sid
        now).credentials.lookup "api_secret" = some sec)
    ∧ ((APIKeyProvider.authenticate hash k (some sec) none none [] sid
        now).credentials.lookup "api_secret_hash" = some (hash sec))
    ∧ APIKeySession.validate_secret hash
        (APIKeyProvider.authenticate hash k (some sec) none none [] sid now)
        sec = true
    ∧ ∀ w : String, hash w ≠ hash sec →
      APIKeySession.validate_secret hash
        (APIKeyProvider.authenticate hash k (some sec) none none [] sid now)
        w = false := by
  have hempty : sec.isEmpty = false :=
    Bool.eq_false_iff.mpr (fun he => hs ((String.isEmpty_iff sec).mp he))
  refine ⟨?_, ?_, ?_, ?_, ?_⟩
  · simp [APIKeyProvider.authenticate, mkAPIKeySession, hempty, strTruthy,
      lookup_cons]
  · simp [APIKeyProvider.authenticate, mkAPIKeySession, hempty, strTruthy,
      lookup_cons]
  · simp [APIKeyProvider.authenticate, mkAPIKeySession, hempty, strTruthy,
      lookup_cons]
  · simp [APIKeyProvider.authenticate, mkAPIKeySession, hempty, strTruthy,
      APIKeySession.validate_secret, lookup_cons]
  · intro w hw
    simp [APIKeyProvider.authenticate, mkAPIKeySession, hempty, strTruthy,
      APIKeySession.validate_secret, lookup_cons, beq_eq_false_iff_ne, hw]

/-- Witness for the amended C8 at a concrete hash function and secret. -/
theorem apiKey_c8_witness :
    ((APIKeyProvider.authenticate (fun x => x ++ "h") "k" (some "s") none
        none [] "sid" 0).credentials.lookup "api_secret" = some "s")
    ∧ APIKeySession.validate_secret (fun x => x ++ "h")
        (APIKeyProvider.authenticate (fun x => x ++ "h") "k" (some "s") none
          none [] "sid" 0) "s" = true
    ∧ APIKeySession.validate_secret (fun x => x ++ "h")
        (APIKeyProvider.authenticate (fun x => x ++ "h") "k" (some "s") none
          none [] "sid" 0) "wrong" = false := by
  have h := apiKey_c8 (fun x => x ++ "h") "k" "s" "sid" 0 (by decide)
  exact ⟨h.2.1, h.2.2.2.1, h.2.2.2.2 "wrong" (by decide)⟩

lemma oauth2_refresh_isOk (s : AuthSession) (td : TokenData) (now : Int)
    (a : String) (hrt : strTruthy s.refresh_token = true)
    (ha : td.access_token = some a) :
    ∃ ns, OAuth2Provider.refresh_session s td now = .ok ns := by
  by_cases hrf : td.refresh_token = none ∧ strTruthy s.refresh_token = true
  · rw [OAuth2Provider.refresh_session, if_pos hrt, if_pos hrf]
    simp only [OAuth2Session.from_token_response, ha]
    exact ⟨_, rfl⟩
  · rw [OAuth2Provider.refresh_session, if_pos hrt, if_neg hrf]
    simp only [OAuth2Session.from_token_response, ha]
    exact ⟨_, rfl⟩

/-- Claim C10: `OAuth2Provider.validate_session` on an expired session of
the right type holding a refresh token, when the token exchange succeeds,
returns `True` while discarding the replacement built by
`refresh_session`: nothing is persisted (the state-passing embedding
returns the storage unchanged; the source method performs no storage
operation), and the session value — untouched by the pure embedding — is
still expired afterwards. -/
theorem oauth2_c10 (st : MemorySessionStorage) (s : AuthSession)
    (td : TokenData) (now : Int) (a : String)
    (hty : s.auth_type = "oauth2") (hexp : s.is_expired now = true)
    (hrt : strTruthy s.refresh_token = true) (ha : td.access_token = some a) :
    OAuth2Provider.validate_session_st st s td now = (true, st)
    ∧ s.is_expired now = true := by
  obtain ⟨ns, hns⟩ := oauth2_refresh_isOk s td now a hrt ha
  refine ⟨?_, hexp⟩
  rw [OAuth2Provider.validate_session_st, OAuth2Provider.validate_session,
      if_pos hty, if_pos hexp, if_pos hrt, hns]

/-- Witness for C10 at a concrete expired session stored under its id. -/
theorem oauth2_c10_witness :
    OAuth2Provider.validate_session_st
      [("sid", ⟨"sid", "oauth2", some 10,
        [("access_token", "old"), ("token_type", "Bearer"),
         ("refresh_token", "r1")], [], 0, 0⟩)]
      ⟨"sid", "oauth2", some 10,
        [("access_token", "old"), ("token_type", "Bearer"),
         ("refresh_token", "r1")], [], 0, 0⟩
      ⟨some "new", none, none, none, none, none⟩ 100 =
    (true,
     [("sid", ⟨"sid", "oauth2", some 10,
        [("access_token", "old"), ("token_type", "Bearer"),
         ("refresh_token", "r1")], [], 0, 0⟩)]) :=
  (oauth2_c10
    [("sid", ⟨"sid", "oauth2", some 10,
      [("access_token", "old"), ("token_type", "Bearer"),
       ("refresh_token", "r1")], [], 0, 0⟩)]
    ⟨"sid", "oauth2", some 10,
      [("access_token", "old"), ("token_type", "Bearer"),
       ("refresh_token", "r1")], [], 0, 0⟩
    ⟨some "new", none, none, none, none, none⟩ 100 "new"
    rfl rfl rfl rfl).1
